import Mathlib

/-!
Shallow embedding of `src/groq-starficient-pipe.py` (the `Pipe` class of the
Groq Starficient adapter) and verification of its behavioural contract.

Modelling conventions:
* Python strings are `List Char`; a Lean string literal `s` is embedded as
  `s.data`.
* The request body (`Dict[str, Any]`) is an association list from keys to
  `PyValue`, a universe of the Python values relevant here: strings,
  booleans and integers.  Python dict assignment (in-place, preserving key
  order, appending when the key is fresh) is `setKey`.
* The two network interactions are passed in as explicit parameters:
  `ModelsNet` is the outcome of `GET /models` (a parsed `data` array whose
  entries each may or may not carry a string `id`, or an exception), and
  `PostOutcome` is the outcome of `POST /chat/completions`.
* The mutable adapter state (`valves.API_KEY`, `_model_cache`) is
  `PipeState`, threaded explicitly; each operation returns its outcome
  together with the new state, the possibly mutated body, and flags that
  record whether a GET request was issued and which payload (if any) was
  POSTed.
* A Python exception that escapes `Pipe.pipe` is modelled by the
  `PipeResult.raised` constructor rather than by `Except`, because the
  side effects on the caller-visible dict survive the raise.
-/

namespace GroqPipe

/-- The apostrophe character, used inside several of the adapter's
f-string error messages. -/
def squote : Char := Char.ofNat 39

/-- Constant `API_BASE_URL = "https://api.groq.com/openai/v1"` (line 82). -/
def API_BASE_URL : List Char := "https://api.groq.com/openai/v1".data

/-- Constant `EXCLUDE_SUBSTRINGS: tuple[str, ...] = ("tts", "whisper")` (line 84). -/
def EXCLUDE_SUBSTRINGS : List (List Char) := ["tts".data, "whisper".data]

/-- Python's `x in m` on strings: `pat` occurs as a contiguous substring
of `s`. -/
def strContains (pat : List Char) : List Char → Bool
  | [] => pat.isEmpty
  | c :: cs => pat.isPrefixOf (c :: cs) || strContains pat cs

/-- The list-comprehension filter used at lines 171-173 and 177-181:
`[m for m in ms if not any(x in m for x in EXCLUDE_SUBSTRINGS)]`.
Python's `x in m` on strings is substring containment, embedded as
`strContains`. -/
def filterExcluded (ms : List (List Char)) : List (List Char) :=
  ms.filter (fun m => !(EXCLUDE_SUBSTRINGS.any (fun x => strContains x m)))

/-- Method `Pipe._hardcoded_models` (lines 122-150): the hand-curated fallback
list. -/
def hardcodedModels : List (List Char) :=
  [ "allam-2-7b".data,
    "compound-beta".data,
    "compound-beta-mini".data,
    "deepseek-r1-distill-llama-70b".data,
    "gemma2-9b-it".data,
    "llama-3.1-8b-instant".data,
    "llama-3.3-70b-versatile".data,
    "llama3-70b-8192".data,
    "llama3-8b-8192".data,
    "openai/gpt-oss-20b".data,
    "openai/gpt-oss-120b".data,
    "meta-llama/llama-guard-4-12b".data,
    "meta-llama/llama-prompt-guard-2-22m".data,
    "meta-llama/llama-prompt-guard-2-86m".data,
    "meta-llama/llama-4-maverick-17b-128e-instruct".data,
    "meta-llama/llama-4-scout-17b-16e-instruct".data,
    "mistral-saba-24b".data,
    "moonshotai/kimi-k2-instruct".data,
    "qwen/qwen3-32b".data ]

/-- Mutable state of a `Pipe` instance: the API key held in
`self.valves.API_KEY` and the `self._model_cache` field (`None` when not
yet populated, line 119). -/
structure PipeState where
  apiKey : List Char
  modelCache : Option (List (List Char))
  deriving DecidableEq, Repr

/-- Outcome of the `GET /models` request performed inside
`_fetch_models_once`.  `ok entries` is a 2xx response whose JSON body
yields `data` entries; each entry's `id` field is `some id` when present
and a string, `none` when extracting it would raise (missing key,
non-string id).  `exn` is every other failure: connection error, timeout,
non-2xx status (`raise_for_status`), JSON decode error, `data` not a
list. -/
inductive ModelsNet where
  | ok (entries : List (Option (List Char)))
  | exn
  deriving DecidableEq, Repr

/-- Result of one call to `_fetch_models_once`: the returned list, the
state afterwards, and whether a network GET was actually issued. -/
structure FetchOutcome where
  models : List (List Char)
  state : PipeState
  requested : Bool
  deriving DecidableEq, Repr

/-- The `try`/`except` body of `_fetch_models_once` (lines 162-181):
what one actual GET produces.  On a parsed 2xx response, extract the ids
(`[m["id"] for m in response.json().get("data", [])]`, which raises when
an entry yields no id, falling into the `except`) and filter them; on
any exception, filter the hard-coded list instead. -/
def resolveModelsPayload (net : ModelsNet) : List (List Char) :=
  match net with
  | .ok entries =>
    match entries.mapM id with
    | some ids => filterExcluded ids
    | none => filterExcluded hardcodedModels
  | .exn => filterExcluded hardcodedModels

/-- Method `Pipe._fetch_models_once` (lines 152-183).  Returns the cache when
populated; otherwise issues the GET, computes `resolveModelsPayload`,
and caches it. -/
def fetchModelsOnce (st : PipeState) (net : ModelsNet) : FetchOutcome :=
  match st.modelCache with
  | some cache => ⟨cache, st, false⟩
  | none =>
    let models := resolveModelsPayload net
    ⟨models, { st with modelCache := some models }, true⟩

/-- Method `Pipe.pipes` (lines 186-190): the model list in
`[{id, name}, ...]` format, each entry duplicating the id. -/
def pipes (st : PipeState) (net : ModelsNet) :
    List ((List Char) × (List Char)) × PipeState × Bool :=
  let f := fetchModelsOnce st net
  (f.models.map (fun m => (m, m)), f.state, f.requested)

/-- The universe of Python values the embedding distinguishes inside the
request body (`Dict[str, Any]`): strings, booleans, integers. -/
inductive PyValue where
  | str (s : List Char)
  | boolV (b : Bool)
  | intV (n : Int)
  deriving DecidableEq, Repr

/-- Python truthiness (`bool(v)` / `if v:`) for the embedded values. -/
def truthy : PyValue → Bool
  | .str s => !s.isEmpty
  | .boolV b => b
  | .intV n => n != 0

/-- A request body: an insertion-ordered mapping, as Python dicts are. -/
abbrev Body : Type := List ((List Char) × PyValue)

/-- Lookup `body[k]` (first, hence unique, occurrence of the key). -/
def lookupKey (b : Body) (k : List Char) : Option PyValue :=
  match b with
  | [] => none
  | (k0, v0) :: rest => if k0 = k then some v0 else lookupKey rest k

/-- Python dict assignment `b[k] = v`: replaces the value in place when
the key exists (keeping its position), appends otherwise. -/
def setKey (b : Body) (k : List Char) (v : PyValue) : Body :=
  match b with
  | [] => [(k, v)]
  | (k0, v0) :: rest =>
    if k0 = k then (k0, v) :: rest else (k0, v0) :: setKey rest k v

/-- Python `body["model"].split(".", 1)[1]`: everything after the first dot.
Only evaluated by `pipe` under the guard `"." in body["model"]`. -/
def splitAfterFirstDot : List Char → List Char
  | [] => []
  | c :: cs => if c = '.' then cs else splitAfterFirstDot cs

def modelKey : List Char := "model".data

def streamKey : List Char := "stream".data

/-- An opaque parsed JSON document, standing for the structured object
`response.json()` returns on a non-streaming success; claims never
inspect it, only pass it through. -/
structure RespJson where
  raw : List Char
  deriving DecidableEq, Repr

/-- Outcome of `response.json()`: a parsed document, or the description
of the decode exception it raises. -/
inductive JsonParse where
  | ok (j : RespJson)
  | err (excDesc : List Char)
  deriving DecidableEq, Repr

/-- Outcome of `POST /chat/completions` as seen from inside the `try`
block of `Pipe.pipe` (lines 244-264).
* `success lines jsonResult`: 2xx; `lines` is what `iter_lines()` would
  yield, `jsonResult` is `response.json()` — `JsonParse.err d` when
  parsing would raise (the description of that exception).
* `httpError status excDesc bodyText`: `raise_for_status` raised
  `requests.exceptions.HTTPError`; carries `response.status_code`,
  `str(exc)` and `response.text`.
* `otherExn excDesc`: any other exception during the call (connection
  refused, timeout, DNS failure, ...). -/
inductive PostOutcome where
  | success (lines : List (List Char)) (jsonResult : JsonParse)
  | httpError (status : Nat) (excDesc : List Char) (bodyText : List Char)
  | otherExn (excDesc : List Char)
  deriving DecidableEq, Repr

/-- What `Pipe.pipe` hands back to the caller: a dict
(non-streaming success), an iterator of byte lines (streaming success),
a descriptive error string, or an uncaught Python exception escaping the
call. -/
inductive PipeResult where
  | errorString (s : List Char)
  | jsonDict (j : RespJson)
  | byteIterator (lines : List (List Char))
  | raised (excDesc : List Char)
  deriving DecidableEq, Repr

/-- Line 220: `"Error: request body must contain 'model' and 'stream'."` -/
def mustContainMsg : List Char :=
  "Error: request body must contain ".data ++ [squote] ++ "model".data ++
    [squote] ++ " and ".data ++ [squote] ++ "stream".data ++ [squote] ++ ".".data

/-- Line 223: `"Error: GROQ_API_KEY environment variable not set."` -/
def noApiKeyMsg : List Char :=
  "Error: GROQ_API_KEY environment variable not set.".data

/-- Lines 232-235:
`f"Error: model '{model_name}' is not supported.\nValid models: {', '.join(allowed_models)}"`. -/
def unsupportedMsg (m : List Char) (allowed : List (List Char)) : List Char :=
  "Error: model ".data ++ [squote] ++ m ++ [squote] ++
    " is not supported.\nValid models: ".data ++
    List.intercalate ", ".data allowed

/-- Lines 256-260:
`f"HTTP {response.status_code} calling {url}: {exc}\n{response.text}"`,
with the 404 hint appended when the status is 404. -/
def httpErrMsg (status : Nat) (url excDesc bodyText : List Char) : List Char :=
  let base := "HTTP ".data ++ (Nat.repr status).data ++ " calling ".data ++
    url ++ ": ".data ++ excDesc ++ "\n".data ++ bodyText
  if status = 404 then
    base ++ "\n(404 usually means an unknown model id.)".data
  else base

/-- Line 264: `f"Unhandled error: {exc}"`. -/
def unhandledMsg (excDesc : List Char) : List Char :=
  "Unhandled error: ".data ++ excDesc

/-- CPython's message for `"." in v` when `v` is a non-iterable such as
an `int` or a `bool`: `argument of type 'int' is not iterable`. -/
def typeErrorNotIterable (typeName : List Char) : List Char :=
  "argument of type ".data ++ [squote] ++ typeName ++ [squote] ++
    " is not iterable".data

/-- The URL `f"{self.base_url}/chat/completions"` (line 238). -/
def chatCompletionsUrl : List Char := API_BASE_URL ++ "/chat/completions".data

/-- Everything one call to `Pipe.pipe` does: the returned value, the
caller-visible body afterwards (mutated in place at line 227), the state
afterwards, whether `GET /models` was issued, and the JSON payload of the
`POST /chat/completions` when one was dispatched. -/
structure PipeOutcome where
  result : PipeResult
  body : Body
  state : PipeState
  fetchRequested : Bool
  postSent : Option Body
  deriving DecidableEq, Repr

/-- Result mapping of the `try`/`except` block around the POST
(lines 244-264): streaming success hands back `iter_lines()`,
non-streaming success `response.json()` (whose own decode exception is
caught by the generic `except` as an unhandled error); `HTTPError` from
`raise_for_status` is formatted with status, URL, description, body text
and a 404 hint; any other exception becomes `Unhandled error: ...`. -/
def postDispatch (sv : PyValue) (post : PostOutcome) : PipeResult :=
  match post with
  | .success lines jsonResult =>
    if truthy sv then .byteIterator lines
    else
      match jsonResult with
      | .ok j => .jsonDict j
      | .err e => .errorString (unhandledMsg e)
  | .httpError status excDesc bodyText =>
    .errorString (httpErrMsg status chatCompletionsUrl excDesc bodyText)
  | .otherExn excDesc => .errorString (unhandledMsg excDesc)

/-- Method `Pipe.pipe` (lines 193-264), with the two network interactions
supplied as parameters.  Control flow, in source order: key-presence
validation; API-key check; prefix stripping (raises `TypeError` when
`body["model"]` is a non-iterable, since `"." in body["model"]` sits
outside any `try`); allow-list membership via `_fetch_models_once`;
POST dispatch and result mapping via `postDispatch`. -/
def pipe (st : PipeState) (body : Body) (net : ModelsNet)
    (post : PostOutcome) : PipeOutcome :=
  match lookupKey body modelKey, lookupKey body streamKey with
  | some mv, some sv =>
    if st.apiKey.isEmpty then
      ⟨.errorString noApiKeyMsg, body, st, false, none⟩
    else
      match mv with
      | .boolV _ => ⟨.raised (typeErrorNotIterable "bool".data), body, st, false, none⟩
      | .intV _ => ⟨.raised (typeErrorNotIterable "int".data), body, st, false, none⟩
      | .str s =>
        let modelName := if s.contains '.' then splitAfterFirstDot s else s
        let body2 := if s.contains '.' then setKey body modelKey (.str modelName) else body
        let f := fetchModelsOnce st net
        if f.models.contains modelName then
          ⟨postDispatch sv post, body2, f.state, f.requested, some body2⟩
        else
          ⟨.errorString (unsupportedMsg modelName f.models),
            body2, f.state, f.requested, none⟩
  | _, _ => ⟨.errorString mustContainMsg, body, st, false, none⟩

/-! ### Helper lemmas -/

theorem lookupKey_setKey_self (b : Body) (k : List Char) (v : PyValue) :
    lookupKey (setKey b k v) k = some v := by
  induction b with
  | nil => simp [setKey, lookupKey]
  | cons p rest ih =>
    obtain ⟨k0, v0⟩ := p
    by_cases h : k0 = k
    · simp [setKey, lookupKey, h]
    · simp [setKey, lookupKey, h, ih]

theorem lookupKey_setKey_ne (b : Body) (k k2 : List Char) (v : PyValue)
    (h : k2 ≠ k) : lookupKey (setKey b k v) k2 = lookupKey b k2 := by
  induction b with
  | nil =>
    have hne : ¬ k = k2 := fun e => h e.symm
    simp only [setKey, lookupKey, if_neg hne]
  | cons p rest ih =>
    obtain ⟨k0, v0⟩ := p
    by_cases h0 : k0 = k
    · have hne : ¬ k0 = k2 := fun e => h (e.symm.trans h0)
      simp only [setKey, if_pos h0, lookupKey, if_neg hne]
    · by_cases h2 : k0 = k2
      · simp only [setKey, if_neg h0, lookupKey, if_pos h2]
      · simp only [setKey, if_neg h0, lookupKey, if_neg h2]
        exact ih

theorem splitAfterFirstDot_decomp (pre suf : List Char) (h : ('.') ∉ pre) :
    splitAfterFirstDot (pre ++ ('.') :: suf) = suf := by
  induction pre with
  | nil => simp [splitAfterFirstDot]
  | cons c cs ih =>
    rw [List.mem_cons, not_or] at h
    simp only [List.cons_append, splitAfterFirstDot]
    rw [if_neg (fun e => h.1 e.symm)]
    exact ih h.2

theorem contains_dot_decomp (pre suf : List Char) :
    (pre ++ ('.') :: suf).contains ('.') = true := by
  simp [List.contains, List.elem_eq_mem]

theorem filterExcluded_eq (ms : List (List Char)) :
    filterExcluded ms =
      ms.filter (fun m =>
        !(strContains "tts".data m || strContains "whisper".data m)) := by
  simp [filterExcluded, EXCLUDE_SUBSTRINGS]

/-- Under a populated cache, `_fetch_models_once` is the identity
observation. -/
theorem fetchModelsOnce_cached (st : PipeState) (c : List (List Char))
    (hc : st.modelCache = some c) (net : ModelsNet) :
    fetchModelsOnce st net = ⟨c, st, false⟩ := by
  simp [fetchModelsOnce, hc]

/-- Under an unpopulated cache, `_fetch_models_once` caches and returns
whatever the GET resolves to. -/
theorem fetchModelsOnce_uncached (st : PipeState) (hc : st.modelCache = none)
    (net : ModelsNet) :
    fetchModelsOnce st net =
      ⟨resolveModelsPayload net,
        { st with modelCache := some (resolveModelsPayload net) }, true⟩ := by
  unfold fetchModelsOnce
  rw [hc]

theorem resolveModelsPayload_ok (entries : List (Option (List Char))) :
    resolveModelsPayload (.ok entries) =
      match entries.mapM id with
      | some ids => filterExcluded ids
      | none => filterExcluded hardcodedModels := rfl

theorem resolveModelsPayload_ok_none (entries : List (Option (List Char)))
    (he : entries.mapM id = none) :
    resolveModelsPayload (.ok entries) = filterExcluded hardcodedModels := by
  rw [resolveModelsPayload_ok, he]

theorem resolveModelsPayload_ok_some (entries : List (Option (List Char)))
    (ids : List (List Char)) (he : entries.mapM id = some ids) :
    resolveModelsPayload (.ok entries) = filterExcluded ids := by
  rw [resolveModelsPayload_ok, he]

/-- The caller-visible body after `pipe`, once validation passed and the
model value is a string: rewritten at `"model"` exactly when the value
contains a dot. -/
theorem pipe_body_eq (st : PipeState) (body : Body) (net : ModelsNet)
    (post : PostOutcome) (s : List Char) (sv : PyValue)
    (hm : lookupKey body modelKey = some (.str s))
    (hs : lookupKey body streamKey = some sv)
    (hk : st.apiKey.isEmpty = false) :
    (pipe st body net post).body =
      if s.contains ('.') then
        setKey body modelKey (.str (splitAfterFirstDot s))
      else body := by
  unfold pipe
  rw [hm, hs]
  simp only [hk, Bool.false_eq_true, if_false]
  cases hdot : s.contains ('.') <;>
    simp only [hdot, Bool.false_eq_true, if_false, if_true] <;>
    split <;> rfl

/-- Each `pipe` branch either leaves the adapter state untouched without
a GET (the early returns) or adopts exactly the state and request flag of
its one `_fetch_models_once` call. -/
theorem pipe_state_shape (st : PipeState) (body : Body) (net : ModelsNet)
    (post : PostOutcome) :
    ((pipe st body net post).state = st ∧
      (pipe st body net post).fetchRequested = false) ∨
    ((pipe st body net post).state = (fetchModelsOnce st net).state ∧
      (pipe st body net post).fetchRequested =
        (fetchModelsOnce st net).requested) := by
  unfold pipe
  split
  · split
    · exact Or.inl ⟨rfl, rfl⟩
    · split
      · exact Or.inl ⟨rfl, rfl⟩
      · exact Or.inl ⟨rfl, rfl⟩
      · split <;> dsimp only <;> split <;> exact Or.inr ⟨rfl, rfl⟩
  · exact Or.inl ⟨rfl, rfl⟩

/-- The unsupported-model branch of `pipe` (lines 231-235): rejected
before any POST, with the enumerating error string. -/
theorem pipe_unsupported_eq (st : PipeState) (body : Body) (net : ModelsNet)
    (post : PostOutcome) (s : List Char) (sv : PyValue)
    (hm : lookupKey body modelKey = some (.str s))
    (hs : lookupKey body streamKey = some sv)
    (hk : st.apiKey.isEmpty = false)
    (hns : (fetchModelsOnce st net).models.contains
        (if s.contains ('.') then splitAfterFirstDot s else s) = false) :
    (pipe st body net post).result =
      .errorString (unsupportedMsg
        (if s.contains ('.') then splitAfterFirstDot s else s)
        (fetchModelsOnce st net).models) ∧
    (pipe st body net post).postSent = none := by
  unfold pipe
  rw [hm, hs]
  simp only [hk, Bool.false_eq_true, if_false]
  cases hdot : s.contains ('.') <;> simp only [hdot, Bool.false_eq_true,
    if_false, if_true] at hns ⊢ <;> rw [hns] <;>
    simp only [Bool.false_eq_true, if_false] <;> exact ⟨by trivial, by trivial⟩

/-- The dispatched branch of `pipe` (lines 237-264): the model passed
the allow-list check, the POST was sent with the (possibly rewritten)
body, and the result is the mapping of the POST outcome. -/
theorem pipe_dispatched_eq (st : PipeState) (body : Body) (net : ModelsNet)
    (post : PostOutcome) (s : List Char) (sv : PyValue)
    (hm : lookupKey body modelKey = some (.str s))
    (hs : lookupKey body streamKey = some sv)
    (hk : st.apiKey.isEmpty = false)
    (hsup : (fetchModelsOnce st net).models.contains
        (if s.contains ('.') then splitAfterFirstDot s else s) = true) :
    (pipe st body net post).result = postDispatch sv post ∧
    (pipe st body net post).postSent =
      some (if s.contains ('.') then
        setKey body modelKey (.str (splitAfterFirstDot s))
      else body) := by
  unfold pipe
  rw [hm, hs]
  simp only [hk, Bool.false_eq_true, if_false]
  cases hdot : s.contains ('.') <;> simp only [hdot, Bool.false_eq_true,
    if_false, if_true] at hsup ⊢ <;> rw [hsup] <;>
    simp only [if_true] <;> exact ⟨by trivial, by trivial⟩

/-- The early-return branch of `pipe` for a body missing one of the two
required keys (lines 219-220). -/
theorem pipe_missing_key_eq (st : PipeState) (body : Body) (net : ModelsNet)
    (post : PostOutcome)
    (h : lookupKey body modelKey = none ∨ lookupKey body streamKey = none) :
    pipe st body net post =
      ⟨.errorString mustContainMsg, body, st, false, none⟩ := by
  unfold pipe
  rcases h with h | h
  · cases hs2 : lookupKey body streamKey with
    | none => rw [h]
    | some sv => rw [h]
  · cases hm2 : lookupKey body modelKey with
    | none => rw [h]
    | some mv => rw [h]

/-- The early-return branch of `pipe` for an empty API key
(lines 222-223). -/
theorem pipe_empty_key_eq (st : PipeState) (body : Body) (net : ModelsNet)
    (post : PostOutcome) (mv sv : PyValue)
    (hm : lookupKey body modelKey = some mv)
    (hs : lookupKey body streamKey = some sv)
    (hk : st.apiKey.isEmpty = true) :
    pipe st body net post =
      ⟨.errorString noApiKeyMsg, body, st, false, none⟩ := by
  unfold pipe
  rw [hm, hs]
  simp only [hk, if_true]

/-- The propagating `TypeError` of `"." in body["model"]` when the model
value is a Python `bool` (line 226 sits outside any `try`). -/
theorem pipe_raises_bool_eq (st : PipeState) (body : Body) (net : ModelsNet)
    (post : PostOutcome) (b : Bool) (sv : PyValue)
    (hm : lookupKey body modelKey = some (.boolV b))
    (hs : lookupKey body streamKey = some sv)
    (hk : st.apiKey.isEmpty = false) :
    pipe st body net post =
      ⟨.raised (typeErrorNotIterable "bool".data), body, st, false, none⟩ := by
  unfold pipe
  rw [hm, hs]
  simp only [hk, Bool.false_eq_true, if_false]

/-- The propagating `TypeError` of `"." in body["model"]` when the model
value is a Python `int`. -/
theorem pipe_raises_int_eq (st : PipeState) (body : Body) (net : ModelsNet)
    (post : PostOutcome) (n : Int) (sv : PyValue)
    (hm : lookupKey body modelKey = some (.intV n))
    (hs : lookupKey body streamKey = some sv)
    (hk : st.apiKey.isEmpty = false) :
    pipe st body net post =
      ⟨.raised (typeErrorNotIterable "int".data), body, st, false, none⟩ := by
  unfold pipe
  rw [hm, hs]
  simp only [hk, Bool.false_eq_true, if_false]

/-- The result mapping of the POST never produces a `raised` value: the
whole network call sits inside `try`/`except`. -/
theorem postDispatch_ne_raised (sv : PyValue) (post : PostOutcome)
    (e : List Char) : postDispatch sv post ≠ .raised e := by
  unfold postDispatch
  split
  · split
    · simp
    · split <;> simp
  · simp
  · simp

/-- The POST payload, when one is dispatched, is the original body or
the original body with only its `"model"` entry reassigned. -/
theorem pipe_postSent_shape (st : PipeState) (body : Body) (net : ModelsNet)
    (post : PostOutcome) :
    (pipe st body net post).postSent = none ∨
    (pipe st body net post).postSent = some body ∨
    ∃ v, (pipe st body net post).postSent = some (setKey body modelKey v) := by
  unfold pipe
  split
  · split
    · exact Or.inl rfl
    · split
      · exact Or.inl rfl
      · exact Or.inl rfl
      · split <;> dsimp only <;> split
        · exact Or.inr (Or.inr ⟨_, rfl⟩)
        · exact Or.inl rfl
        · exact Or.inr (Or.inl rfl)
        · exact Or.inl rfl
  · exact Or.inl rfl

/-! ### Claims -/

/-- C1: for a request that passes validation (both keys present,
API key set) and whose model value is a string, `pipe` rewrites
`body["model"]` in place: a value decomposing as `pre ++ '.' :: suf`
with no dot in `pre` (so `suf` is everything after the first dot)
becomes `suf`; a value containing no dot passes through unchanged. -/
theorem pipe_strips_prefix_after_first_dot
    (st : PipeState) (body : Body) (net : ModelsNet) (post : PostOutcome)
    (s : List Char) (sv : PyValue)
    (hm : lookupKey body modelKey = some (.str s))
    (hs : lookupKey body streamKey = some sv)
    (hk : st.apiKey.isEmpty = false) :
    (∀ pre suf, s = pre ++ ('.') :: suf → ('.') ∉ pre →
      lookupKey (pipe st body net post).body modelKey = some (.str suf)) ∧
    (s.contains ('.') = false →
      lookupKey (pipe st body net post).body modelKey = some (.str s)) := by
  constructor
  · intro pre suf hsplit hpre
    subst hsplit
    rw [pipe_body_eq st body net post _ sv hm hs hk, contains_dot_decomp pre suf,
      if_pos rfl, splitAfterFirstDot_decomp pre suf hpre, lookupKey_setKey_self]
  · intro hnd
    rw [pipe_body_eq st body net post s sv hm hs hk, hnd]
    simp only [Bool.false_eq_true, if_false]
    exact hm

theorem pipe_strips_prefix_after_first_dot_witness :
    lookupKey (pipe ⟨"k".data, none⟩
        [(modelKey, .str "groq.llama3-8b-8192".data), (streamKey, .boolV true)]
        .exn (.otherExn [])).body modelKey =
      some (.str "llama3-8b-8192".data) :=
  (pipe_strips_prefix_after_first_dot ⟨"k".data, none⟩
      [(modelKey, .str "groq.llama3-8b-8192".data), (streamKey, .boolV true)]
      .exn (.otherExn []) "groq.llama3-8b-8192".data (.boolV true)
      (by decide) (by decide) (by decide)).1
    "groq".data "llama3-8b-8192".data (by decide) (by decide)

/-- C2: once `_model_cache` is populated, `_fetch_models_once` returns
the cached sequence unchanged with no network request — whether reached
directly, via `pipes`, or via `pipe` — and no operation resets or
invalidates the cache. -/
theorem model_cache_populated_at_most_once
    (st : PipeState) (c : List (List Char)) (hc : st.modelCache = some c) :
    (∀ net, fetchModelsOnce st net = ⟨c, st, false⟩) ∧
    (∀ net, pipes st net = (c.map (fun m => (m, m)), st, false)) ∧
    (∀ body net post,
      (pipe st body net post).state.modelCache = some c ∧
      (pipe st body net post).fetchRequested = false) := by
  refine ⟨fun net => fetchModelsOnce_cached st c hc net, fun net => ?_,
    fun body net post => ?_⟩
  · simp [pipes, fetchModelsOnce_cached st c hc net]
  · rcases pipe_state_shape st body net post with ⟨h1, h2⟩ | ⟨h1, h2⟩
    · rw [h1, h2]
      exact ⟨hc, rfl⟩
    · rw [h1, h2, fetchModelsOnce_cached st c hc net]
      exact ⟨hc, rfl⟩

theorem model_cache_populated_at_most_once_witness :
    fetchModelsOnce ⟨"k".data, some ["llama3-8b-8192".data]⟩ .exn =
      ⟨["llama3-8b-8192".data], ⟨"k".data, some ["llama3-8b-8192".data]⟩, false⟩ :=
  (model_cache_populated_at_most_once ⟨"k".data, some ["llama3-8b-8192".data]⟩
    ["llama3-8b-8192".data] (by decide)).1 .exn

/-- C3: with an unpopulated cache, any failing `GET /models` — an
exception (network error, timeout, non-2xx via `raise_for_status`, JSON
decode error) or a `data` entry whose id cannot be extracted — makes
`_fetch_models_once` return the hard-coded fallback list with the same
filtering rule applied (every id containing `tts` or `whisper` removed)
and cache exactly that result. -/
theorem fetch_models_failure_uses_fallback
    (st : PipeState) (hc : st.modelCache = none) :
    (fetchModelsOnce st .exn =
      ⟨filterExcluded hardcodedModels,
        { st with modelCache := some (filterExcluded hardcodedModels) },
        true⟩) ∧
    (∀ entries, entries.mapM id = none →
      fetchModelsOnce st (.ok entries) =
        ⟨filterExcluded hardcodedModels,
          { st with modelCache := some (filterExcluded hardcodedModels) },
          true⟩) ∧
    filterExcluded hardcodedModels =
      hardcodedModels.filter (fun m =>
        !(strContains "tts".data m || strContains "whisper".data m)) := by
  refine ⟨fetchModelsOnce_uncached st hc .exn, fun entries he => ?_,
    filterExcluded_eq hardcodedModels⟩
  rw [fetchModelsOnce_uncached st hc (.ok entries),
    resolveModelsPayload_ok_none entries he]

theorem fetch_models_failure_uses_fallback_witness :
    fetchModelsOnce ⟨"k".data, none⟩ .exn =
      ⟨filterExcluded hardcodedModels,
        ⟨"k".data, some (filterExcluded hardcodedModels)⟩, true⟩ :=
  (fetch_models_failure_uses_fallback ⟨"k".data, none⟩ (by decide)).1

/-- C4: a validated request whose (normalized) string model id is not a
member of the resolved allow-list is answered with the
`... is not supported` error string — which carries the comma-join of
every currently allowed id, in list order, as a substring — and no POST
is dispatched. -/
theorem pipe_rejects_unsupported_model
    (st : PipeState) (body : Body) (net : ModelsNet) (post : PostOutcome)
    (s modelName : List Char) (sv : PyValue) (allowed : List (List Char))
    (hm : lookupKey body modelKey = some (.str s))
    (hs : lookupKey body streamKey = some sv)
    (hk : st.apiKey.isEmpty = false)
    (hmn : modelName = if s.contains ('.') then splitAfterFirstDot s else s)
    (hall : allowed = (fetchModelsOnce st net).models)
    (hns : allowed.contains modelName = false) :
    (pipe st body net post).result =
      .errorString (unsupportedMsg modelName allowed) ∧
    "is not supported".data <:+: unsupportedMsg modelName allowed ∧
    List.intercalate ", ".data allowed <:+: unsupportedMsg modelName allowed ∧
    (pipe st body net post).postSent = none := by
  subst hmn hall
  obtain ⟨h1, h2⟩ := pipe_unsupported_eq st body net post s sv hm hs hk hns
  refine ⟨h1, ?_, ?_, h2⟩
  · have hseg : (" is not supported.\nValid models: ".data : List Char) =
        [' '] ++ "is not supported".data ++ ".\nValid models: ".data := by
      decide
    have hmsg : unsupportedMsg
        (if s.contains ('.') then splitAfterFirstDot s else s)
        (fetchModelsOnce st net).models =
        ("Error: model ".data ++ [squote] ++
            (if s.contains ('.') then splitAfterFirstDot s else s) ++
            [squote] ++ [' ']) ++
          "is not supported".data ++
          (".\nValid models: ".data ++
            List.intercalate ", ".data (fetchModelsOnce st net).models) := by
      unfold unsupportedMsg
      rw [hseg]
      simp [List.append_assoc]
    rw [hmsg]
    exact List.infix_append _ _ _
  · unfold unsupportedMsg
    exact (List.suffix_append _ _).isInfix

theorem pipe_rejects_unsupported_model_witness :
    (pipe ⟨"k".data, some ["llama3-8b-8192".data]⟩
        [(modelKey, .str "unknown-model".data), (streamKey, .boolV false)]
        .exn (.otherExn [])).result =
      .errorString (unsupportedMsg "unknown-model".data
        ["llama3-8b-8192".data]) ∧
    "is not supported".data <:+:
      unsupportedMsg "unknown-model".data ["llama3-8b-8192".data] ∧
    List.intercalate ", ".data ["llama3-8b-8192".data] <:+:
      unsupportedMsg "unknown-model".data ["llama3-8b-8192".data] ∧
    (pipe ⟨"k".data, some ["llama3-8b-8192".data]⟩
        [(modelKey, .str "unknown-model".data), (streamKey, .boolV false)]
        .exn (.otherExn [])).postSent = none :=
  pipe_rejects_unsupported_model ⟨"k".data, some ["llama3-8b-8192".data]⟩
    [(modelKey, .str "unknown-model".data), (streamKey, .boolV false)]
    .exn (.otherExn []) "unknown-model".data "unknown-model".data
    (.boolV false) ["llama3-8b-8192".data]
    (by decide) (by decide) (by decide) (by decide) (by decide) (by decide)

/-- C7: with an unpopulated cache, a successful `GET /models` whose
`data` entries all yield ids makes `_fetch_models_once` return exactly
those ids in response order, minus every id containing the
case-sensitive substring `tts` or `whisper`, and cache that list. -/
theorem fetch_models_success_filters_ids
    (st : PipeState) (hc : st.modelCache = none)
    (entries : List (Option (List Char))) (ids : List (List Char))
    (he : entries.mapM id = some ids) :
    fetchModelsOnce st (.ok entries) =
      ⟨ids.filter (fun m =>
          !(strContains "tts".data m || strContains "whisper".data m)),
        { st with modelCache := some (ids.filter (fun m =>
          !(strContains "tts".data m || strContains "whisper".data m))) },
        true⟩ := by
  rw [fetchModelsOnce_uncached st hc (.ok entries),
    resolveModelsPayload_ok_some entries ids he, filterExcluded_eq]

theorem fetch_models_success_filters_ids_witness :
    fetchModelsOnce ⟨"k".data, none⟩
        (.ok [some "llama3-8b-8192".data, some "whisper-large-v3".data,
          some "playai-tts".data]) =
      ⟨["llama3-8b-8192".data],
        ⟨"k".data, some ["llama3-8b-8192".data]⟩, true⟩ := by
  have h := fetch_models_success_filters_ids ⟨"k".data, none⟩ (by decide)
    [some "llama3-8b-8192".data, some "whisper-large-v3".data,
      some "playai-tts".data]
    ["llama3-8b-8192".data, "whisper-large-v3".data, "playai-tts".data]
    (by decide)
  rw [h]
  decide

/-- Any left/right factorization of the base upstream-error text around
a part exhibits that part as an infix of the final message, whether or
not the 404 hint is appended. -/
theorem httpErrMsg_infix_of_base (status : Nat)
    (url excDesc bodyText l s t : List Char)
    (hEq : s ++ l ++ t =
      "HTTP ".data ++ (Nat.repr status).data ++ " calling ".data ++ url ++
        ": ".data ++ excDesc ++ "\n".data ++ bodyText) :
    l <:+: httpErrMsg status url excDesc bodyText := by
  have hbase : httpErrMsg status url excDesc bodyText =
      if status = 404 then
        ("HTTP ".data ++ (Nat.repr status).data ++ " calling ".data ++ url ++
          ": ".data ++ excDesc ++ "\n".data ++ bodyText) ++
          "\n(404 usually means an unknown model id.)".data
      else
        "HTTP ".data ++ (Nat.repr status).data ++ " calling ".data ++ url ++
          ": ".data ++ excDesc ++ "\n".data ++ bodyText := rfl
  by_cases h4 : status = 404
  · rw [hbase, if_pos h4]
    refine ⟨s, t ++ "\n(404 usually means an unknown model id.)".data, ?_⟩
    calc s ++ l ++ (t ++ "\n(404 usually means an unknown model id.)".data)
        = (s ++ l ++ t) ++
            "\n(404 usually means an unknown model id.)".data := by
          simp [List.append_assoc]
      _ = _ := by rw [hEq]
  · rw [hbase, if_neg h4]
    exact ⟨s, t, hEq⟩

/-- C8: when the POST answers with an HTTP error status, the returned
error string is the formatted upstream-error message, which contains the
decimal status code, the target URL, the library-level error description
and the raw response body text as substrings; when the status is 404 it
also contains the unknown-model hint. -/
theorem pipe_reports_http_error_details
    (st : PipeState) (body : Body) (net : ModelsNet)
    (s : List Char) (sv : PyValue)
    (status : Nat) (excDesc bodyText : List Char)
    (hm : lookupKey body modelKey = some (.str s))
    (hs : lookupKey body streamKey = some sv)
    (hk : st.apiKey.isEmpty = false)
    (hsup : (fetchModelsOnce st net).models.contains
        (if s.contains ('.') then splitAfterFirstDot s else s) = true) :
    (pipe st body net (.httpError status excDesc bodyText)).result =
      .errorString (httpErrMsg status chatCompletionsUrl excDesc bodyText) ∧
    (Nat.repr status).data <:+:
      httpErrMsg status chatCompletionsUrl excDesc bodyText ∧
    chatCompletionsUrl <:+:
      httpErrMsg status chatCompletionsUrl excDesc bodyText ∧
    excDesc <:+: httpErrMsg status chatCompletionsUrl excDesc bodyText ∧
    bodyText <:+: httpErrMsg status chatCompletionsUrl excDesc bodyText ∧
    (status = 404 →
      "(404 usually means an unknown model id.)".data <:+:
        httpErrMsg status chatCompletionsUrl excDesc bodyText) := by
  refine ⟨(pipe_dispatched_eq st body net (.httpError status excDesc bodyText)
      s sv hm hs hk hsup).1,
    httpErrMsg_infix_of_base status chatCompletionsUrl excDesc bodyText _
      "HTTP ".data
      (" calling ".data ++ chatCompletionsUrl ++ ": ".data ++ excDesc ++
        "\n".data ++ bodyText)
      (by simp [List.append_assoc]),
    httpErrMsg_infix_of_base status chatCompletionsUrl excDesc bodyText _
      ("HTTP ".data ++ (Nat.repr status).data ++ " calling ".data)
      (": ".data ++ excDesc ++ "\n".data ++ bodyText)
      (by simp [List.append_assoc]),
    httpErrMsg_infix_of_base status chatCompletionsUrl excDesc bodyText _
      ("HTTP ".data ++ (Nat.repr status).data ++ " calling ".data ++
        chatCompletionsUrl ++ ": ".data)
      ("\n".data ++ bodyText)
      (by simp [List.append_assoc]),
    httpErrMsg_infix_of_base status chatCompletionsUrl excDesc bodyText _
      ("HTTP ".data ++ (Nat.repr status).data ++ " calling ".data ++
        chatCompletionsUrl ++ ": ".data ++ excDesc ++ "\n".data)
      []
      (by simp [List.append_assoc]),
    fun h4 => ?_⟩
  have hbase : httpErrMsg status chatCompletionsUrl excDesc bodyText =
      if status = 404 then
        ("HTTP ".data ++ (Nat.repr status).data ++ " calling ".data ++
          chatCompletionsUrl ++ ": ".data ++ excDesc ++ "\n".data ++
          bodyText) ++ "\n(404 usually means an unknown model id.)".data
      else
        "HTTP ".data ++ (Nat.repr status).data ++ " calling ".data ++
          chatCompletionsUrl ++ ": ".data ++ excDesc ++ "\n".data ++
          bodyText := rfl
  rw [hbase, if_pos h4]
  have hhint : ("\n(404 usually means an unknown model id.)".data : List Char) =
      "\n".data ++ "(404 usually means an unknown model id.)".data ++ [] := by
    decide
  rw [hhint, ← List.append_assoc, ← List.append_assoc]
  exact List.infix_append _ _ _

theorem pipe_reports_http_error_details_witness :
    (pipe ⟨"k".data, some ["llama3-8b-8192".data]⟩
        [(modelKey, .str "llama3-8b-8192".data), (streamKey, .boolV false)]
        .exn (.httpError 404 "404 Client Error".data "not found".data)).result =
      .errorString (httpErrMsg 404 chatCompletionsUrl
        "404 Client Error".data "not found".data) ∧
    (Nat.repr 404).data <:+:
      httpErrMsg 404 chatCompletionsUrl "404 Client Error".data
        "not found".data ∧
    chatCompletionsUrl <:+:
      httpErrMsg 404 chatCompletionsUrl "404 Client Error".data
        "not found".data ∧
    "404 Client Error".data <:+:
      httpErrMsg 404 chatCompletionsUrl "404 Client Error".data
        "not found".data ∧
    "not found".data <:+:
      httpErrMsg 404 chatCompletionsUrl "404 Client Error".data
        "not found".data ∧
    (404 = 404 →
      "(404 usually means an unknown model id.)".data <:+:
        httpErrMsg 404 chatCompletionsUrl "404 Client Error".data
          "not found".data) :=
  pipe_reports_http_error_details ⟨"k".data, some ["llama3-8b-8192".data]⟩
    [(modelKey, .str "llama3-8b-8192".data), (streamKey, .boolV false)]
    .exn "llama3-8b-8192".data (.boolV false) 404
    "404 Client Error".data "not found".data
    (by decide) (by decide) (by decide) (by decide)

/-- C10: the in-place normalization of `body["model"]` survives every
return path after it: for any validated request whose string model value
contains a dot, the caller-visible mapping afterwards holds the stripped
id whatever the allow-list decides and whatever the POST outcome is —
in particular on the unsupported-model, HTTP-error and unhandled-error
string returns. -/
theorem model_normalization_persists_on_error_paths
    (st : PipeState) (body : Body) (net : ModelsNet) (post : PostOutcome)
    (s : List Char) (sv : PyValue)
    (hm : lookupKey body modelKey = some (.str s))
    (hs : lookupKey body streamKey = some sv)
    (hk : st.apiKey.isEmpty = false)
    (hdot : s.contains ('.') = true) :
    lookupKey (pipe st body net post).body modelKey =
      some (.str (splitAfterFirstDot s)) := by
  rw [pipe_body_eq st body net post s sv hm hs hk, hdot, if_pos rfl,
    lookupKey_setKey_self]

theorem model_normalization_persists_on_error_paths_witness :
    lookupKey (pipe ⟨"k".data, some []⟩
        [(modelKey, .str "groq.unknown".data), (streamKey, .boolV false)]
        .exn (.httpError 500 [] [])).body modelKey =
      some (.str "unknown".data) :=
  model_normalization_persists_on_error_paths ⟨"k".data, some []⟩
    [(modelKey, .str "groq.unknown".data), (streamKey, .boolV false)]
    .exn (.httpError 500 [] []) "groq.unknown".data (.boolV false)
    (by decide) (by decide) (by decide) (by decide)

/-- C9: every key of the request body other than `"model"` reaches the
outbound POST payload with exactly the value it had on entry — only the
`"model"` entry is ever reassigned. -/
theorem pipe_preserves_other_body_fields
    (st : PipeState) (body sent : Body) (net : ModelsNet) (post : PostOutcome)
    (hsent : (pipe st body net post).postSent = some sent) :
    ∀ k, k ≠ modelKey → lookupKey sent k = lookupKey body k := by
  intro k hknot
  rcases pipe_postSent_shape st body net post with h | h | ⟨v, h⟩
  · rw [h] at hsent
    exact Option.noConfusion hsent
  · rw [h] at hsent
    rw [← Option.some.inj hsent]
  · rw [h] at hsent
    rw [← Option.some.inj hsent]
    exact lookupKey_setKey_ne body modelKey k v hknot

theorem pipe_preserves_other_body_fields_witness :
    lookupKey [(modelKey, PyValue.str "llama3-8b-8192".data),
        (streamKey, PyValue.boolV false),
        ("messages".data, PyValue.str "hi".data)] "messages".data =
      lookupKey [(modelKey, PyValue.str "groq.llama3-8b-8192".data),
        (streamKey, PyValue.boolV false),
        ("messages".data, PyValue.str "hi".data)] "messages".data :=
  pipe_preserves_other_body_fields ⟨"k".data, some ["llama3-8b-8192".data]⟩
    [(modelKey, PyValue.str "groq.llama3-8b-8192".data),
      (streamKey, PyValue.boolV false),
      ("messages".data, PyValue.str "hi".data)]
    [(modelKey, PyValue.str "llama3-8b-8192".data),
      (streamKey, PyValue.boolV false),
      ("messages".data, PyValue.str "hi".data)]
    .exn (.success [] (.ok ⟨[]⟩)) (by decide) "messages".data (by decide)

/-- C5, as stated, is false: `pipe` can propagate a Python exception.
With both keys present and a non-empty API key, a non-string `"model"`
value (here the int `5`) reaches `"." in body["model"]` at line 226,
which sits outside the `try` block and raises `TypeError`. -/
theorem pipe_raises_on_nonstring_model :
    (pipe ⟨"k".data, none⟩
        [(modelKey, PyValue.intV 5), (streamKey, PyValue.boolV false)]
        .exn (.otherExn [])).result =
      .raised (typeErrorNotIterable "int".data) := by
  decide

/-- C5 (amended): for every body whose `"model"` value — if present — is
a string, `pipe` returns a value (dict, byte iterator, or descriptive
string) and never propagates an exception; every error kind, including
validation failures and transport failures, is surfaced as a plain
string. -/
theorem pipe_never_raises_for_string_model
    (st : PipeState) (body : Body) (net : ModelsNet) (post : PostOutcome)
    (hstr : ∀ v, lookupKey body modelKey = some v → ∃ s, v = PyValue.str s) :
    ∀ e, (pipe st body net post).result ≠ .raised e := by
  intro e
  cases hm : lookupKey body modelKey with
  | none =>
    rw [pipe_missing_key_eq st body net post (Or.inl hm)]
    simp
  | some mv =>
    obtain ⟨s, rfl⟩ := hstr mv hm
    cases hs : lookupKey body streamKey with
    | none =>
      rw [pipe_missing_key_eq st body net post (Or.inr hs)]
      simp
    | some sv =>
      cases hk : st.apiKey.isEmpty with
      | true =>
        rw [pipe_empty_key_eq st body net post _ sv hm hs hk]
        simp
      | false =>
        cases hcon : (fetchModelsOnce st net).models.contains
            (if s.contains ('.') then splitAfterFirstDot s else s) with
        | true =>
          rw [(pipe_dispatched_eq st body net post s sv hm hs hk hcon).1]
          exact postDispatch_ne_raised sv post e
        | false =>
          rw [(pipe_unsupported_eq st body net post s sv hm hs hk hcon).1]
          simp

theorem pipe_never_raises_for_string_model_witness :
    (pipe ⟨[], none⟩ [] .exn (.otherExn [])).result ≠ .raised [] :=
  pipe_never_raises_for_string_model ⟨[], none⟩ [] .exn (.otherExn [])
    (fun _ hv => Option.noConfusion hv) []

/-- C6: a body lacking `"model"` or `"stream"` is answered with the
`must contain` error string before any network interaction — no GET, no
POST — and those two keys are the only ones validation looks at: two
bodies agreeing on the values of `"model"` and `"stream"` produce the
same result whatever their other fields are. -/
theorem pipe_validates_only_model_and_stream
    (st : PipeState) (net : ModelsNet) (post : PostOutcome) :
    (∀ body,
      (lookupKey body modelKey = none ∨ lookupKey body streamKey = none) →
      (pipe st body net post).result = .errorString mustContainMsg ∧
      "must contain".data <:+: mustContainMsg ∧
      (pipe st body net post).fetchRequested = false ∧
      (pipe st body net post).postSent = none) ∧
    (∀ b1 b2 mv sv,
      lookupKey b1 modelKey = some mv → lookupKey b2 modelKey = some mv →
      lookupKey b1 streamKey = some sv → lookupKey b2 streamKey = some sv →
      (pipe st b1 net post).result = (pipe st b2 net post).result) := by
  constructor
  · intro body h
    rw [pipe_missing_key_eq st body net post h]
    exact ⟨rfl, by decide, rfl, rfl⟩
  · intro b1 b2 mv sv hm1 hm2 hs1 hs2
    cases hk : st.apiKey.isEmpty with
    | true =>
      rw [pipe_empty_key_eq st b1 net post mv sv hm1 hs1 hk,
        pipe_empty_key_eq st b2 net post mv sv hm2 hs2 hk]
    | false =>
      cases mv with
      | boolV b =>
        rw [pipe_raises_bool_eq st b1 net post b sv hm1 hs1 hk,
          pipe_raises_bool_eq st b2 net post b sv hm2 hs2 hk]
      | intV n =>
        rw [pipe_raises_int_eq st b1 net post n sv hm1 hs1 hk,
          pipe_raises_int_eq st b2 net post n sv hm2 hs2 hk]
      | str s =>
        cases hcon : (fetchModelsOnce st net).models.contains
            (if s.contains ('.') then splitAfterFirstDot s else s) with
        | true =>
          rw [(pipe_dispatched_eq st b1 net post s sv hm1 hs1 hk hcon).1,
            (pipe_dispatched_eq st b2 net post s sv hm2 hs2 hk hcon).1]
        | false =>
          rw [(pipe_unsupported_eq st b1 net post s sv hm1 hs1 hk hcon).1,
            (pipe_unsupported_eq st b2 net post s sv hm2 hs2 hk hcon).1]

theorem pipe_validates_only_model_and_stream_witness :
    (pipe ⟨"k".data, none⟩ [(streamKey, PyValue.boolV true)] .exn
        (.otherExn [])).result = .errorString mustContainMsg ∧
    "must contain".data <:+: mustContainMsg ∧
    (pipe ⟨"k".data, none⟩ [(streamKey, PyValue.boolV true)] .exn
        (.otherExn [])).fetchRequested = false ∧
    (pipe ⟨"k".data, none⟩ [(streamKey, PyValue.boolV true)] .exn
        (.otherExn [])).postSent = none :=
  (pipe_validates_only_model_and_stream ⟨"k".data, none⟩ .exn
      (.otherExn [])).1
    [(streamKey, PyValue.boolV true)] (Or.inl (by decide))

end GroqPipe
